import Mathlib

/-!
Verification of the dreamvision pipeline scripts.

This file gives a shallow embedding of the two scripts
tools/run_pipeline.py and tools/add_build_phase.py and proves
properties of the task-polling state machine, the link validator,
the artifact recorder, the conversion invoker, the orchestrator and
the Xcode build-phase patcher.

Conventions of the embedding:
- Python exceptions are modelled by the PyResult type: a computation
  either returns a value or raises an exception carrying a message.
- Network and filesystem effects are modelled by explicit oracles
  (a trace function giving the outcome of the i-th HTTP request, a
  world record giving the outcome of each filesystem step).
- Machine strings are Lean String values; Python str.lower is pyLower,
  Python substring membership (the in operator) is strContains, Python
  str.split on a newline is splitLines, str.replace is pyReplace.
-/

namespace DreamVision

/-- Outcome of a Python computation: a normal return value or a raised
exception carrying its message. -/
inductive PyResult (α : Type) where
  | ok (a : α)
  | exn (msg : String)
deriving DecidableEq

/-- A urllib.request.Request object as far as the scripts use it. -/
structure UrlRequest where
  url : String
  method : String
deriving DecidableEq

/-- Constructor call urllib.request.Request(url, method=m, ...).
The real constructor signature is (url, data, headers, origin_req_host,
unverifiable, method); it has no timeout parameter, so a call that passes
a timeout keyword argument (timeout_kwarg = true) raises TypeError before
any request object is built.  The timeout argument belongs to urlopen
instead, as the download_file helper in the same source file uses it. -/
def Request (url method : String) (timeout_kwarg : Bool) : PyResult UrlRequest :=
  if timeout_kwarg then
    PyResult.exn "TypeError: Request got an unexpected keyword argument timeout"
  else
    PyResult.ok { url := url, method := method }

/-- validate_file from tools/run_pipeline.py lines 63-71.  The body builds
Request(url, method=HEAD, timeout=10) and opens it, returning
response.status == 200; every exception is caught, logged and mapped to
False.  The urlopen_head oracle gives the status the network would answer
for a HEAD request on a given url (or the exception it would raise). -/
def validate_file (urlopen_head : String → PyResult Nat) (url : String) : Bool :=
  match Request url "HEAD" true with
  | PyResult.exn _ => false
  | PyResult.ok req =>
    match urlopen_head req.url with
    | PyResult.exn _ => false
    | PyResult.ok status => status == 200

/-- Parsed JSON body of a 200 status-endpoint response: the fields the
poller reads, each possibly absent. -/
structure StatusResponse where
  status : Option String
  downloadUrl : Option String
  format : Option String
deriving DecidableEq

/-- What one urlopen call inside the polling loop yields: an HTTP response
with a status code and parsed body, or a raised exception (transport
failure, timeout, ...). -/
inductive AttemptResult where
  | response (httpStatus : Nat) (body : StatusResponse)
  | exn (msg : String)
deriving DecidableEq

/-- The dictionaries poll_task_status can return, as a closed enumeration.
completed carries the download_url value (None or a string), the format
value and whether the validation_failed key is present (the source only
ever sets that key to True). -/
inductive Outcome where
  | completed (download_url : Option String) (format : String) (validation_failed : Bool)
  | failed
  | timeout
  | error (http_status : Nat)
  | networkError
  | unknownError
deriving DecidableEq

/-- Result of one whole call to poll_task_status: the returned dictionary
together with the observable effect counters, namely how many status
queries were issued and how many times time.sleep(interval) ran. -/
structure PollResult where
  outcome : Outcome
  queries : Nat
  sleeps : Nat
deriving DecidableEq

/-- Python str.lower (as used on ASCII status strings). -/
def pyLower (s : String) : String :=
  String.mk (s.data.map Char.toLower)

/-- The polling loop of poll_task_status, lines 128-196 of
tools/run_pipeline.py.  The Python loop is for attempt in range(max_attempts);
here remaining is the number of loop iterations still available, so the
loop entry is remaining = max_attempts, attempt = 0, and falling out of the
loop (remaining = 0) returns the unknown_error dictionary of line 196.
queries and sleeps accumulate the effect counters.  Note the if/elif chain
of the 200-branch: a status string that is none of completed, failed,
pending, processing, unknown matches no branch, so the loop advances to the
next attempt without sleeping. -/
def pollAux (trace : Nat → AttemptResult) (validate : String → Bool)
    (max_attempts : Nat) :
    Nat → Nat → Nat → Nat → PollResult
  | 0, _, queries, sleeps => ⟨Outcome.unknownError, queries, sleeps⟩
  | remaining + 1, attempt, queries, sleeps =>
    match trace attempt with
    | AttemptResult.exn _ =>
      if attempt < max_attempts - 1 then
        pollAux trace validate max_attempts remaining (attempt + 1) (queries + 1) (sleeps + 1)
      else
        ⟨Outcome.networkError, queries + 1, sleeps⟩
    | AttemptResult.response code body =>
      if code = 200 then
        if pyLower (body.status.getD "unknown") = "completed" then
          match body.downloadUrl with
          | some u =>
            if u = "" then
              ⟨Outcome.completed none (body.format.getD "unknown") false, queries + 1, sleeps⟩
            else if validate u then
              ⟨Outcome.completed (some u) (body.format.getD "unknown") false, queries + 1, sleeps⟩
            else
              ⟨Outcome.completed (some u) (body.format.getD "unknown") true, queries + 1, sleeps⟩
          | none =>
            ⟨Outcome.completed none (body.format.getD "unknown") false, queries + 1, sleeps⟩
        else if pyLower (body.status.getD "unknown") = "failed" then
          ⟨Outcome.failed, queries + 1, sleeps⟩
        else if pyLower (body.status.getD "unknown")
            ∈ (["pending", "processing", "unknown"] : List String) then
          if attempt < max_attempts - 1 then
            pollAux trace validate max_attempts remaining (attempt + 1) (queries + 1) (sleeps + 1)
          else
            ⟨Outcome.timeout, queries + 1, sleeps⟩
        else
          pollAux trace validate max_attempts remaining (attempt + 1) (queries + 1) sleeps
      else
        ⟨Outcome.error code, queries + 1, sleeps⟩

/-- poll_task_status(task_id, max_attempts, interval).  The trace oracle
gives the network behaviour of the status query of each attempt, validate
is the link-validation step invoked on a completed download URL.  interval
only fixes the duration passed to each recorded time.sleep call; the
sleeps counter of the result counts those calls. -/
def poll_task_status (trace : Nat → AttemptResult) (validate : String → Bool)
    (max_attempts interval : Nat) : PollResult :=
  pollAux trace validate max_attempts max_attempts 0 0 0

/-- The analysis dictionary of a model record: keyword list, emotion list
and a free-text visual description. -/
structure DreamAnalysis where
  keywords : List String
  emotions : List String
  visualDescription : String
deriving DecidableEq

/-- One entry of models.json, as built by main (lines 308-315). -/
structure ModelInfo where
  name : String
  url : String
  description : String
  analysis : DreamAnalysis
  timestamp : String
  task_id : String
deriving DecidableEq

/-- The parsed content of models.json: a JSON document with a models list. -/
structure ModelCollection where
  models : List ModelInfo
deriving DecidableEq

/-- What reading the backing store yields: the file is absent, or it parses
to a collection, or the read or parse raises. -/
inductive LoadResult where
  | missing
  | loaded (data : ModelCollection)
  | corrupt (msg : String)
deriving DecidableEq

/-- Filesystem behaviour during one write_models_json call: the outcome of
the mkdir step, of the load step and of the final write. -/
structure StoreWorld where
  mkdir_result : PyResult Unit
  load_result : LoadResult
  write_result : PyResult Unit
deriving DecidableEq

/-- Lines 205-209 of tools/run_pipeline.py: existing data is the parsed
file when MODELS_JSON exists, the empty collection when it does not, and a
raised exception when reading or parsing fails. -/
def loadExisting : LoadResult → PyResult ModelCollection
  | LoadResult.missing => PyResult.ok ⟨[]⟩
  | LoadResult.loaded data => PyResult.ok data
  | LoadResult.corrupt msg => PyResult.exn msg

/-- write_models_json from tools/run_pipeline.py lines 198-222: mkdir the
parent, load the existing collection (missing file means empty), append
model_info, write the whole collection back.  The except clause logs and
re-raises, so every exception of a step propagates to the caller.  The ok
value is the collection the file holds after the call. -/
def write_models_json (world : StoreWorld) (model_info : ModelInfo) :
    PyResult ModelCollection :=
  match world.mkdir_result with
  | PyResult.exn e => PyResult.exn e
  | PyResult.ok _ =>
    match loadExisting world.load_result with
    | PyResult.exn e => PyResult.exn e
    | PyResult.ok existing_data =>
      let updated : ModelCollection := ⟨existing_data.models ++ [model_info]⟩
      match world.write_result with
      | PyResult.exn e => PyResult.exn e
      | PyResult.ok _ => PyResult.ok updated

/-- Behaviour of the subprocess.run call on convert.sh: the child finished
with an exit code (and captured streams), or the 300s wall-clock timeout
fired (subprocess.TimeoutExpired), or some other exception was raised. -/
inductive SubprocResult where
  | finished (returncode : Int) (stdout : String) (stderr : String)
  | timedOut
  | raised (msg : String)
deriving DecidableEq

/-- run_convert_script from tools/run_pipeline.py lines 224-262.  A missing
script returns False at once; exit code 0 returns True; a non-zero exit
code, the timeout or any other exception each return False.  The PyResult
return type records that no branch raises to the caller. -/
def run_convert_script (script_exists : Bool) (sub : SubprocResult) :
    PyResult Bool :=
  if script_exists = false then
    PyResult.ok false
  else
    match sub with
    | SubprocResult.finished returncode _ _ => PyResult.ok (returncode == 0)
    | SubprocResult.timedOut => PyResult.ok false
    | SubprocResult.raised _ => PyResult.ok false

/-- Python truthiness of an optional string, as tested by the two
if download_url: guards: None and the empty string are falsy. -/
def truthyStr : Option String → Bool
  | none => false
  | some s => s ≠ ""

/-- The hard-coded dream description of main (line 277). -/
def dream_description : String :=
  "A dream about flying through clouds with a sense of freedom and wonder"

/-- The hard-coded dream analysis of main (lines 279-283). -/
def dream_analysis : DreamAnalysis :=
  { keywords := ["flying", "clouds", "freedom", "wonder"]
    emotions := ["peaceful", "excited", "liberated"]
    visualDescription := "A figure soaring through fluffy white clouds in a bright blue sky, arms outstretched, with a peaceful expression" }

/-- Everything outside main that determines one pipeline run: the
configuration check, the submission result, the outcome poll_task_status
will return, the filesystem behaviour of the record step, the command-line
convert flag and the conversion subprocess behaviour.  timestamp is the
datetime.now value used for the record. -/
structure MainWorld where
  api_key_set : Bool
  submit_result : PyResult String
  poll_outcome : Outcome
  store : StoreWorld
  convert_flag : Bool
  convert_script_exists : Bool
  convert_sub : SubprocResult
  timestamp : String
deriving DecidableEq

/-- Observable result of one main run: the process exit status, the
collection persisted to models.json by this run (none when the run did not
persist a record), and whether conversion ran and succeeded. -/
structure MainResult where
  exit_code : Nat
  recorded : Option ModelCollection
  conversion_ran : Bool
  conversion_ok : Bool
deriving DecidableEq

/-- The model_info dictionary main builds at lines 308-315. -/
def main_model_info (w : MainWorld) (task_id download_url : String) : ModelInfo :=
  { name := "dreamecho_model"
    url := download_url
    description := dream_description
    analysis := dream_analysis
    timestamp := w.timestamp
    task_id := task_id }

/-- main from tools/run_pipeline.py lines 264-343.  Missing credential,
submission failure, a non-completed poll outcome and a completed outcome
without a truthy download URL each exit with status 1; an exception raised
out of write_models_json reaches the top-level except and exits with
status 1; after the record is persisted, a False conversion result is only
logged as a warning and the run falls through to the success log, exiting
with status 0. -/
def main_run (w : MainWorld) : MainResult :=
  if w.api_key_set = false then
    ⟨1, none, false, false⟩
  else
    match w.submit_result with
    | PyResult.exn _ => ⟨1, none, false, false⟩
    | PyResult.ok task_id =>
      match w.poll_outcome with
      | Outcome.completed download_url _ _ =>
        if truthyStr download_url then
          match write_models_json w.store
              (main_model_info w task_id (download_url.getD "")) with
          | PyResult.exn _ => ⟨1, none, false, false⟩
          | PyResult.ok updated =>
            if w.convert_flag then
              match run_convert_script w.convert_script_exists w.convert_sub with
              | PyResult.ok success => ⟨0, some updated, true, success⟩
              | PyResult.exn _ => ⟨1, some updated, true, false⟩
            else
              ⟨0, some updated, false, false⟩
        else
          ⟨1, none, false, false⟩
      | _ => ⟨1, none, false, false⟩

/-- Does the character list s start with the pattern p. -/
def charsLeadWith : List Char → List Char → Bool
  | [], _ => true
  | _ :: _, [] => false
  | p :: ps, c :: cs => p == c && charsLeadWith ps cs

/-- Does the pattern occur as a contiguous run inside s. -/
def charsContain (pat : List Char) : List Char → Bool
  | [] => charsLeadWith pat []
  | c :: rest => charsLeadWith pat (c :: rest) || charsContain pat rest

/-- Python substring membership: pat in s. -/
def strContains (s pat : String) : Bool :=
  charsContain pat.data s.data

/-- Python s.split with a newline separator. -/
def splitLines : List Char → List (List Char)
  | [] => [[]]
  | c :: rest =>
    if c = '\n' then
      [] :: splitLines rest
    else
      match splitLines rest with
      | [] => [[c]]
      | l :: ls => (c :: l) :: ls

/-- Python newline.join over the split lines. -/
def joinLines : List (List Char) → List Char
  | [] => []
  | [l] => l
  | l :: ls => l ++ '\n' :: joinLines ls

/-- The line loop of add_run_script_phase (lines 65-72 of
tools/add_build_phase.py): copy every line, and right after a line that
contains the anchor text append the phase reference line. -/
def insertAfterAnchor (phase_line anchor : List Char) :
    List (List Char) → List (List Char)
  | [] => []
  | l :: ls =>
    if charsContain anchor l then
      l :: phase_line :: insertAfterAnchor phase_line anchor ls
    else
      l :: insertAfterAnchor phase_line anchor ls

/-- Python str.replace of every occurrence of a non-empty pattern, driven
by an explicit fuel so the definition is structural (the fuel is the input
length, which bounds the number of consumed characters). -/
def replaceChars (pat repl : List Char) : Nat → List Char → List Char
  | 0, s => s
  | _, [] => []
  | fuel + 1, c :: rest =>
    if !pat.isEmpty && charsLeadWith pat (c :: rest) then
      repl ++ replaceChars pat repl fuel (List.drop (pat.length - 1) rest)
    else
      c :: replaceChars pat repl fuel rest

/-- Python s.replace(pat, repl) for a non-empty pat. -/
def pyReplace (s pat repl : String) : String :=
  String.mk (replaceChars pat.data repl.data s.data.length s.data)

/-- One character of json.dumps string escaping. -/
def jsonEscapeChar (c : Char) : String :=
  if c = '"' then "\\\""
  else if c = '\\' then "\\\\"
  else if c = '\n' then "\\n"
  else if c = '\t' then "\\t"
  else if c = '\r' then "\\r"
  else String.singleton c

/-- json.dumps applied to a string (as used for the shellScript value). -/
def jsonDumps (s : String) : String :=
  "\"" ++ String.join (s.data.map jsonEscapeChar) ++ "\""

/-- The script_content literal of add_run_script_phase (lines 28-47). -/
def script_content : String :=
  "#!/bin/bash\n# 3D model auto-conversion build phase\n\nset -euo pipefail\n\nPROJECT_DIR=\"$PROJECT_DIR\"\nTOOLS_DIR=\"$PROJECT_DIR/tools\"\n\necho \"Starting 3D model conversion...\"\n\nif [[ -x \"$TOOLS_DIR/convert.sh\" ]]; then\n    echo \"Running conversion script...\"\n    \"$TOOLS_DIR/convert.sh\"\nelse\n    echo \"convert.sh not found, skipping\"\nfi\n\necho \"Build phase completed\"\n"

/-- The anchor text whose containing line triggers the buildPhases
insertion (line 70). -/
def add_anchor : String := "77D0401B2EC09A7B0004334C /* Resources */,"

/-- The text the insert-position regex actually matches: the raw pattern
is (/\x5c* Begin PBXResourcesBuildPhase section \x5c*/), whose regex
semantics (escaped stars, a grouping pair of parentheses) match this plain
text. -/
def insert_pattern_regex_match : String :=
  "/* Begin PBXResourcesBuildPhase section */"

/-- The same raw pattern taken as a literal string, which is what
content.replace receives at line 104: parentheses and backslashes
included, so it is not the text the regex search found. -/
def insert_pattern_literal : String :=
  "(/\\* Begin PBXResourcesBuildPhase section \\*/)"

/-- The PBXShellScriptBuildPhase section text built at lines 77-98 for a
given phase identifier. -/
def shell_script_section (phase_id : String) : String :=
  "\n\n/* Begin PBXShellScriptBuildPhase section */\n" ++
  "\t\t\t" ++ phase_id ++ " /* Convert 3D Models */ = \x7b\n" ++
  "\t\t\t\tisa = PBXShellScriptBuildPhase;\n" ++
  "\t\t\t\tbuildActionMask = 2147483647;\n" ++
  "\t\t\t\tfiles = (\n\t\t\t\t);\n" ++
  "\t\t\t\tinputFileListPaths = (\n\t\t\t\t);\n" ++
  "\t\t\t\tinputPaths = (\n\t\t\t\t);\n" ++
  "\t\t\t\toutputFileListPaths = (\n\t\t\t\t);\n" ++
  "\t\t\t\toutputPaths = (\n\t\t\t\t);\n" ++
  "\t\t\t\trunOnlyForDeploymentPostprocessing = 0;\n" ++
  "\t\t\t\tshellPath = /bin/bash;\n" ++
  "\t\t\t\tshellScript = " ++ jsonDumps script_content ++ ";\n" ++
  "\t\t\t\x7d;\n" ++
  "/* End PBXShellScriptBuildPhase section */\n"

/-- Observable result of add_run_script_phase: the returned boolean, the
content written to project.pbxproj.backup and the content written to
project.pbxproj (none when the corresponding file was not written). -/
structure AddPhaseOutcome where
  result : Bool
  backup_written : Option String
  project_written : Option String
deriving DecidableEq

/-- add_run_script_phase from tools/add_build_phase.py lines 12-121.
content is what the project file held on entry and phase_id stands for the
uuid-derived identifier of line 54.  The shell-script section is spliced
by content.replace(insert_pattern, ...) where insert_pattern is the raw
regex text, so the replace looks for the literal pattern characters; the
content variable is reassigned by the line loop before the backup file is
written at lines 110-114. -/
def add_run_script_phase (project_file_exists : Bool) (content : String)
    (phase_id : String) : AddPhaseOutcome :=
  if project_file_exists = false then
    ⟨false, none, none⟩
  else if strContains content "PBXShellScriptBuildPhase" then
    ⟨true, none, none⟩
  else
    let phase_line : String := "\t\t\t" ++ phase_id ++ " /* Convert 3D Models */,"
    let content1 : String :=
      String.mk (joinLines
        (insertAfterAnchor phase_line.data add_anchor.data (splitLines content.data)))
    if strContains content1 insert_pattern_regex_match then
      let content2 : String :=
        pyReplace content1 insert_pattern_literal
          (shell_script_section phase_id ++ "\n" ++ insert_pattern_literal)
      ⟨true, some content2, some content2⟩
    else
      ⟨false, none, none⟩

/-- A concrete model record used to instantiate the recorder theorems. -/
def sample_record_one : ModelInfo :=
  { name := "dreamecho_model"
    url := "https://h/m1.glb"
    description := dream_description
    analysis := dream_analysis
    timestamp := "2025-01-01T00:00:00"
    task_id := "T1" }

/-- A second, distinct concrete model record. -/
def sample_record_two : ModelInfo :=
  { name := "dreamecho_model"
    url := "https://h/m2.glb"
    description := dream_description
    analysis := dream_analysis
    timestamp := "2025-01-02T00:00:00"
    task_id := "T2" }

/-- A store world where the backing file is absent and every step
succeeds. -/
def sample_store_missing : StoreWorld :=
  { mkdir_result := PyResult.ok ()
    load_result := LoadResult.missing
    write_result := PyResult.ok () }

/-- A store world holding exactly the first sample record, every step
succeeding. -/
def sample_store_loaded : StoreWorld :=
  { mkdir_result := PyResult.ok ()
    load_result := LoadResult.loaded ⟨[sample_record_one]⟩
    write_result := PyResult.ok () }

/-- A main-world whose conversion is requested and fails with child exit
code 1, while every record step succeeds. -/
def sample_main_world : MainWorld :=
  { api_key_set := true
    submit_result := PyResult.ok "T1"
    poll_outcome := Outcome.completed (some "https://h/m1.glb") "glb" false
    store := sample_store_missing
    convert_flag := true
    convert_script_exists := true
    convert_sub := SubprocResult.finished 1 "" "conversion error"
    timestamp := "2025-01-01T00:00:00" }

/-- A small project.pbxproj content with the Resources anchor line and the
PBXResourcesBuildPhase section marker, and no shell-script phase yet. -/
def sample_pbxproj : String :=
  "// !$*UTF8*$!\n\t\t\tbuildPhases = (\n\t\t\t\t77D040192EC09A7B0004334C /* Sources */,\n\t\t\t\t77D0401B2EC09A7B0004334C /* Resources */,\n\t\t\t);\n/* Begin PBXResourcesBuildPhase section */\n/* End PBXResourcesBuildPhase section */\n"

/-- A concrete 24-character phase identifier standing for the uuid-derived
one. -/
def sample_phase_id : String := "ABCDEF0123456789ABCDEF01"

/-- Looping lemma: if every status query answers 200 with a status string
that matches no branch of the if/elif chain, the loop consumes all its
remaining attempts without ever sleeping and falls out with the
unknown_error outcome. -/
theorem pollAux_unrecognized_loop
    (trace : Nat → AttemptResult) (v : String → Bool) (max_attempts : Nat)
    (hall : ∀ i, ∃ b, trace i = AttemptResult.response 200 b ∧
      pyLower (b.status.getD "unknown") ≠ "completed" ∧
      pyLower (b.status.getD "unknown") ≠ "failed" ∧
      pyLower (b.status.getD "unknown") ∉ (["pending", "processing", "unknown"] : List String)) :
    ∀ remaining attempt queries sleeps,
      pollAux trace v max_attempts remaining attempt queries sleeps =
        ⟨Outcome.unknownError, queries + remaining, sleeps⟩ := by
  intro remaining
  induction remaining with
  | zero =>
    intro attempt q s
    simp [pollAux]
  | succ k ih =>
    intro attempt q s
    obtain ⟨b, heq, h1, h2, h3⟩ := hall attempt
    simp only [pollAux, heq, h1, h2, h3, if_true, if_false, ite_false, ite_true]
    rw [ih (attempt + 1) (q + 1) s]
    simp only [PollResult.mk.injEq, true_and, and_true]
    omega

/-- Looping lemma: if every status query answers 200 with a status string
whose lowercase form is pending, processing or unknown, the loop sleeps
once per gap and returns the timeout outcome on its last attempt. -/
theorem pollAux_pending_loop
    (trace : Nat → AttemptResult) (v : String → Bool) (max_attempts : Nat)
    (hall : ∀ i, ∃ b, trace i = AttemptResult.response 200 b ∧
      pyLower (b.status.getD "unknown") ∈ (["pending", "processing", "unknown"] : List String)) :
    ∀ remaining attempt queries sleeps,
      attempt + remaining = max_attempts → 0 < remaining →
      pollAux trace v max_attempts remaining attempt queries sleeps =
        ⟨Outcome.timeout, queries + remaining, sleeps + (remaining - 1)⟩ := by
  intro remaining
  induction remaining with
  | zero =>
    intro attempt q s _ hpos
    exact absurd hpos (by omega)
  | succ k ih =>
    intro attempt q s hsum _
    obtain ⟨b, heq, hmem⟩ := hall attempt
    have h1 : pyLower (b.status.getD "unknown") ≠ "completed" := by
      intro hc; rw [hc] at hmem; simp at hmem
    have h2 : pyLower (b.status.getD "unknown") ≠ "failed" := by
      intro hc; rw [hc] at hmem; simp at hmem
    rcases k with _ | k'
    · have hnlt : ¬ (attempt < max_attempts - 1) := by omega
      rw [pollAux.eq_2]
      simp [heq, h1, h2, hmem, hnlt]
    · have hlt : attempt < max_attempts - 1 := by omega
      rw [pollAux.eq_2]
      simp only [heq, h1, h2, hmem, hlt, if_true, if_false, ite_true, ite_false]
      rw [ih (attempt + 1) (q + 1) (s + 1) (by omega) (by omega)]
      simp only [PollResult.mk.injEq, true_and, and_true]
      omega

/-- Claim C1 is false on the code.  Concrete input: every status query
answers HTTP 200 with status cancelled (an unrecognized string), with
maxAttempts 2 and interval 1.  The claim predicts the pending behaviour:
one sleep between the two attempts and the timeout outcome, that is the
poll result (timeout, 2 queries, 1 sleep).  The code instead falls through
the if/elif chain, retries at once without sleeping and ends with the
unknown_error outcome: the poll result is (unknown_error, 2 queries,
0 sleeps). -/
theorem poll_unrecognized_not_like_pending :
    poll_task_status (fun _ => AttemptResult.response 200 ⟨some "cancelled", none, none⟩)
        (fun _ => true) 2 1 ≠ ⟨Outcome.timeout, 2, 1⟩ ∧
      poll_task_status (fun _ => AttemptResult.response 200 ⟨some "cancelled", none, none⟩)
        (fun _ => true) 2 1 = ⟨Outcome.unknownError, 2, 0⟩ :=
  ⟨by decide, by decide⟩

/-- Claim C1 (amended): when every attempt of poll receives an HTTP 200
response whose lowercased status field is an unrecognized string (none of
completed, failed, pending, processing, unknown), the poller treats it as
non-terminal but not like pending: it retries immediately without ever
calling sleep, and when the attempts are exhausted it returns the
unknown_error outcome, not timeout. -/
theorem poll_unrecognized_retries_without_sleep
    (trace : Nat → AttemptResult) (v : String → Bool) (max_attempts interval : Nat)
    (hall : ∀ i, ∃ b, trace i = AttemptResult.response 200 b ∧
      pyLower (b.status.getD "unknown") ≠ "completed" ∧
      pyLower (b.status.getD "unknown") ≠ "failed" ∧
      pyLower (b.status.getD "unknown") ∉ (["pending", "processing", "unknown"] : List String)) :
    poll_task_status trace v max_attempts interval =
      ⟨Outcome.unknownError, max_attempts, 0⟩ := by
  have h := pollAux_unrecognized_loop trace v max_attempts hall max_attempts 0 0 0
  simpa [poll_task_status] using h

/-- Witness for the amended claim C1 at the concrete trace that always
answers 200 with status cancelled, maxAttempts 2, interval 1. -/
theorem poll_unrecognized_retries_without_sleep_witness :
    poll_task_status (fun _ => AttemptResult.response 200 ⟨some "cancelled", none, none⟩)
      (fun _ => true) 2 1 = ⟨Outcome.unknownError, 2, 0⟩ :=
  poll_unrecognized_retries_without_sleep _ _ 2 1
    (fun _ => ⟨⟨some "cancelled", none, none⟩, rfl, by decide, by decide, by decide⟩)

/-- Claim C2: for every maxAttempts of at least 1 and every interval, if
every status query returns HTTP 200 with status pending, poll returns the
timeout outcome after exactly maxAttempts status queries, and
sleep(interval) runs exactly maxAttempts - 1 times, once per gap between
consecutive attempts and never after the last. -/
theorem poll_all_pending_times_out
    (trace : Nat → AttemptResult) (v : String → Bool) (max_attempts interval : Nat)
    (hmax : 1 ≤ max_attempts)
    (hall : ∀ i, ∃ b, trace i = AttemptResult.response 200 b ∧ b.status = some "pending") :
    poll_task_status trace v max_attempts interval =
      ⟨Outcome.timeout, max_attempts, max_attempts - 1⟩ := by
  have hall' : ∀ i, ∃ b, trace i = AttemptResult.response 200 b ∧
      pyLower (b.status.getD "unknown") ∈ (["pending", "processing", "unknown"] : List String) := by
    intro i
    obtain ⟨b, heq, hst⟩ := hall i
    refine ⟨b, heq, ?_⟩
    rw [hst]
    decide
  have h := pollAux_pending_loop trace v max_attempts hall' max_attempts 0 0 0
    (by omega) (by omega)
  simpa [poll_task_status] using h

/-- Witness for claim C2 at maxAttempts 3, interval 2: exactly 3 queries
and 2 sleeps. -/
theorem poll_all_pending_times_out_witness :
    poll_task_status (fun _ => AttemptResult.response 200 ⟨some "pending", none, none⟩)
      (fun _ => false) 3 2 = ⟨Outcome.timeout, 3, 2⟩ := by
  have h := poll_all_pending_times_out
    (fun _ => AttemptResult.response 200 ⟨some "pending", none, none⟩)
    (fun _ => false) 3 2 (by omega)
    (fun _ => ⟨⟨some "pending", none, none⟩, rfl, rfl⟩)
  simpa using h

/-- Claim C3 is right about the intent but the code is wrong: because the
call Request(url, method=HEAD, timeout=10) passes timeout to the Request
constructor (which has no such parameter) instead of to urlopen, every
call raises TypeError inside the try block, so validate_file returns False
for every url and every network behaviour — even for a HEAD request the
network would answer with status 200.  The never-raises half of the claim
does hold: the except clause maps the exception to False. -/
theorem validate_file_always_false :
    (∀ (urlopen_head : String → PyResult Nat) (url : String),
        validate_file urlopen_head url = false) ∧
      validate_file (fun _ => PyResult.ok 200) "https://example.com/model.glb" = false :=
  ⟨fun _ _ => rfl, rfl⟩

/-- Claim C4: on any attempt of the polling loop (pollAux with remaining
r + 1 attempts is the loop about to run that attempt), an HTTP response
with a non-200 status code makes poll return the error outcome carrying
that code at once, with no retry and no sleep; a transport exception on an
attempt that is not the last sleeps once and retries; a transport
exception on the last attempt returns the network_error outcome. -/
theorem poll_http_error_fail_fast_transport_retry
    (trace : Nat → AttemptResult) (v : String → Bool)
    (max_attempts r attempt q s : Nat) :
    (∀ code body, trace attempt = AttemptResult.response code body → code ≠ 200 →
      pollAux trace v max_attempts (r + 1) attempt q s = ⟨Outcome.error code, q + 1, s⟩)
    ∧ (∀ msg, trace attempt = AttemptResult.exn msg → attempt < max_attempts - 1 →
      pollAux trace v max_attempts (r + 1) attempt q s =
        pollAux trace v max_attempts r (attempt + 1) (q + 1) (s + 1))
    ∧ (∀ msg, trace attempt = AttemptResult.exn msg → attempt = max_attempts - 1 →
      pollAux trace v max_attempts (r + 1) attempt q s =
        ⟨Outcome.networkError, q + 1, s⟩) := by
  refine ⟨?_, ?_, ?_⟩
  · intro code body heq hne
    rw [pollAux.eq_2, heq]
    simp [hne]
  · intro msg heq hlt
    rw [pollAux.eq_2, heq]
    simp [hlt]
  · intro msg heq heqa
    have hnlt : ¬ (attempt < max_attempts - 1) := by omega
    rw [pollAux.eq_2, heq]
    simp [hnlt]

/-- Witness for claim C4: a 404 response on attempt 0 of a 60-attempt poll
returns the error outcome at once with no sleep; a transport exception on
attempt 0 of 3 sleeps once and retries; a transport exception on attempt 2
of 3 (the last) returns network_error. -/
theorem poll_http_error_fail_fast_transport_retry_witness :
    pollAux (fun _ => AttemptResult.response 404 ⟨none, none, none⟩) (fun _ => true)
        60 60 0 0 0 = ⟨Outcome.error 404, 1, 0⟩
    ∧ pollAux (fun _ => AttemptResult.exn "connection reset") (fun _ => true)
        3 3 0 0 0 =
      pollAux (fun _ => AttemptResult.exn "connection reset") (fun _ => true)
        3 2 1 1 1
    ∧ pollAux (fun _ => AttemptResult.exn "connection reset") (fun _ => true)
        3 1 2 2 1 = ⟨Outcome.networkError, 3, 1⟩ := by
  refine ⟨?_, ?_, ?_⟩
  · have h := (poll_http_error_fail_fast_transport_retry
      (fun _ => AttemptResult.response 404 ⟨none, none, none⟩) (fun _ => true)
      60 59 0 0 0).1 404 ⟨none, none, none⟩ rfl (by decide)
    simpa using h
  · have h := (poll_http_error_fail_fast_transport_retry
      (fun _ => AttemptResult.exn "connection reset") (fun _ => true)
      3 2 0 0 0).2.1 "connection reset" rfl (by decide)
    simpa using h
  · have h := (poll_http_error_fail_fast_transport_retry
      (fun _ => AttemptResult.exn "connection reset") (fun _ => true)
      3 0 2 2 1).2.2 "connection reset" rfl (by decide)
    simpa using h

/-- Claim C5: on any attempt that receives HTTP 200 with status completed
and a present non-empty downloadUrl, poll returns the completed outcome
carrying that url and the format field; the validation_failed key is
absent when link validation succeeds and present (True) when it fails; in
both cases the outcome status is completed. -/
theorem poll_completed_validation_flag
    (trace : Nat → AttemptResult) (v : String → Bool)
    (max_attempts r attempt q s : Nat) (body : StatusResponse) (u : String)
    (heq : trace attempt = AttemptResult.response 200 body)
    (hst : pyLower (body.status.getD "unknown") = "completed")
    (hdl : body.downloadUrl = some u) (hne : u ≠ "") :
    (v u = true →
      pollAux trace v max_attempts (r + 1) attempt q s =
        ⟨Outcome.completed (some u) (body.format.getD "unknown") false, q + 1, s⟩)
    ∧ (v u = false →
      pollAux trace v max_attempts (r + 1) attempt q s =
        ⟨Outcome.completed (some u) (body.format.getD "unknown") true, q + 1, s⟩) := by
  constructor
  · intro hv
    rw [pollAux.eq_2, heq]
    simp [hst, hdl, hne, hv]
  · intro hv
    rw [pollAux.eq_2, heq]
    simp [hst, hdl, hne, hv]

/-- Witness for claim C5: a completed response with url https://h/m.glb
and format glb, once under a validator that accepts the url (no
validation_failed key) and once under one that rejects it
(validation_failed present), both outcomes completed. -/
theorem poll_completed_validation_flag_witness :
    pollAux (fun _ => AttemptResult.response 200
        ⟨some "completed", some "https://h/m.glb", some "glb"⟩) (fun _ => true)
      60 60 0 0 0 =
      ⟨Outcome.completed (some "https://h/m.glb") "glb" false, 1, 0⟩
    ∧ pollAux (fun _ => AttemptResult.response 200
        ⟨some "completed", some "https://h/m.glb", some "glb"⟩) (fun _ => false)
      60 60 0 0 0 =
      ⟨Outcome.completed (some "https://h/m.glb") "glb" true, 1, 0⟩ := by
  constructor
  · have h := (poll_completed_validation_flag
      (fun _ => AttemptResult.response 200
        ⟨some "completed", some "https://h/m.glb", some "glb"⟩) (fun _ => true)
      60 59 0 0 0 ⟨some "completed", some "https://h/m.glb", some "glb"⟩
      "https://h/m.glb" rfl (by decide) rfl (by decide)).1 rfl
    simpa using h
  · have h := (poll_completed_validation_flag
      (fun _ => AttemptResult.response 200
        ⟨some "completed", some "https://h/m.glb", some "glb"⟩) (fun _ => false)
      60 59 0 0 0 ⟨some "completed", some "https://h/m.glb", some "glb"⟩
      "https://h/m.glb" rfl (by decide) rfl (by decide)).2 rfl
    simpa using h

/-- Claim C6: the recorder treats a missing backing store as the empty
collection; a successful call appends exactly one record at the end,
leaving every prior entry unchanged and in order; two calls with two
distinct records on an initially empty store yield exactly 2 records in
insertion order; one call on a pre-existing store yields the prior list
plus one appended record. -/
theorem write_models_json_appends
    (w1 w2 : StoreWorld) (s : ModelCollection) (r r1 r2 : ModelInfo) :
    (w1.mkdir_result = PyResult.ok () → w1.load_result = LoadResult.missing →
      w1.write_result = PyResult.ok () →
      write_models_json w1 r = PyResult.ok ⟨[r]⟩)
    ∧ (w1.mkdir_result = PyResult.ok () → w1.load_result = LoadResult.loaded s →
      w1.write_result = PyResult.ok () →
      write_models_json w1 r = PyResult.ok ⟨s.models ++ [r]⟩)
    ∧ (r1 ≠ r2 →
      w1.mkdir_result = PyResult.ok () → w1.load_result = LoadResult.missing →
      w1.write_result = PyResult.ok () →
      w2.mkdir_result = PyResult.ok () →
      w2.load_result = LoadResult.loaded ⟨[r1]⟩ →
      w2.write_result = PyResult.ok () →
      write_models_json w1 r1 = PyResult.ok ⟨[r1]⟩
      ∧ write_models_json w2 r2 = PyResult.ok ⟨[r1, r2]⟩
      ∧ ([r1, r2] : List ModelInfo).length = 2) := by
  refine ⟨?_, ?_, ?_⟩
  · intro h1 h2 h3
    simp [write_models_json, loadExisting, h1, h2, h3]
  · intro h1 h2 h3
    simp [write_models_json, loadExisting, h1, h2, h3]
  · intro _ h1 h2 h3 h4 h5 h6
    refine ⟨?_, ?_, rfl⟩
    · simp [write_models_json, loadExisting, h1, h2, h3]
    · simp [write_models_json, loadExisting, h4, h5, h6]

/-- Witness for claim C6: the two sample records recorded one after the
other on an initially empty store give the two-element collection in
insertion order. -/
theorem write_models_json_appends_witness :
    write_models_json sample_store_missing sample_record_one =
      PyResult.ok ⟨[sample_record_one]⟩
    ∧ write_models_json sample_store_loaded sample_record_two =
      PyResult.ok ⟨[sample_record_one, sample_record_two]⟩ := by
  have h := (write_models_json_appends sample_store_missing sample_store_loaded
    ⟨[sample_record_one]⟩ sample_record_one sample_record_one sample_record_two).2.2
    (by decide) rfl rfl rfl rfl rfl rfl
  exact ⟨h.1, h.2.1⟩

/-- Claim C7: whenever poll would return a completed outcome whose
download_url is None, main exits with status 1 and never reports success,
and no model record is persisted. -/
theorem main_null_download_url_fatal
    (w : MainWorld) (fmt : String) (vf : Bool)
    (hpoll : w.poll_outcome = Outcome.completed none fmt vf) :
    (main_run w).exit_code = 1 ∧ (main_run w).recorded = none := by
  cases hak : w.api_key_set
  · simp [main_run, hak]
  · cases hsub : w.submit_result with
    | ok task_id => simp [main_run, hak, hsub, hpoll, truthyStr]
    | exn m => simp [main_run, hak, hsub]

/-- Witness for claim C7: a run whose poll outcome is completed with a
None download URL exits 1 and records nothing. -/
theorem main_null_download_url_fatal_witness :
    (main_run
      { api_key_set := true
        submit_result := PyResult.ok "T1"
        poll_outcome := Outcome.completed none "glb" false
        store := sample_store_missing
        convert_flag := false
        convert_script_exists := false
        convert_sub := SubprocResult.timedOut
        timestamp := "2025-01-01T00:00:00" }).exit_code = 1
    ∧ (main_run
      { api_key_set := true
        submit_result := PyResult.ok "T1"
        poll_outcome := Outcome.completed none "glb" false
        store := sample_store_missing
        convert_flag := false
        convert_script_exists := false
        convert_sub := SubprocResult.timedOut
        timestamp := "2025-01-01T00:00:00" }).recorded = none :=
  main_null_download_url_fatal _ "glb" false rfl

/-- Claim C8: run_convert_script never raises to its caller — a missing
executable, a non-zero child exit code, a subprocess timeout and any other
exception all come back as the returned value False (exit code 0 as True);
and once the model record has been persisted, a failed conversion does not
change the success outcome: the run still exits with status 0. -/
theorem run_convert_script_never_raises_nonfatal :
    (∀ (script_exists : Bool) (sub : SubprocResult),
      ∃ b, run_convert_script script_exists sub = PyResult.ok b)
    ∧ (∀ sub : SubprocResult, run_convert_script false sub = PyResult.ok false)
    ∧ (∀ (returncode : Int) (out err : String), returncode ≠ 0 →
      run_convert_script true (SubprocResult.finished returncode out err) =
        PyResult.ok false)
    ∧ run_convert_script true SubprocResult.timedOut = PyResult.ok false
    ∧ (∀ msg, run_convert_script true (SubprocResult.raised msg) = PyResult.ok false)
    ∧ (∀ (w : MainWorld) (task_id u fmt : String) (vf : Bool),
      w.api_key_set = true → w.submit_result = PyResult.ok task_id →
      w.poll_outcome = Outcome.completed (some u) fmt vf → u ≠ "" →
      (∃ c, write_models_json w.store (main_model_info w task_id u) = PyResult.ok c) →
      (main_run w).exit_code = 0 ∧ (main_run w).recorded ≠ none) := by
  refine ⟨?_, ?_, ?_, rfl, ?_, ?_⟩
  · intro script_exists sub
    cases script_exists <;> cases sub <;> exact ⟨_, rfl⟩
  · intro sub
    rfl
  · intro returncode out err hrc
    simp [run_convert_script, hrc]
  · intro msg
    rfl
  · intro w task_id u fmt vf hak hsub hpoll hne hok
    obtain ⟨c, hc⟩ := hok
    cases hcf : w.convert_flag
    · simp [main_run, hak, hsub, hpoll, truthyStr, hne, hc, hcf]
    · cases hcse : w.convert_script_exists <;> cases hcs : w.convert_sub <;>
        simp [main_run, run_convert_script, hak, hsub, hpoll, truthyStr, hne, hc,
          hcf, hcse, hcs]

/-- Witness for claim C8: the missing-executable, non-zero-exit, timeout
and other-exception cases each return the value False without an
exception, and a run with the convert flag set whose conversion child
exits with code 1 still exits with status 0 after the record is
persisted. -/
theorem run_convert_script_never_raises_nonfatal_witness :
    run_convert_script false SubprocResult.timedOut = PyResult.ok false
    ∧ run_convert_script true (SubprocResult.finished 1 "" "conversion error") =
        PyResult.ok false
    ∧ run_convert_script true SubprocResult.timedOut = PyResult.ok false
    ∧ run_convert_script true (SubprocResult.raised "OSError") = PyResult.ok false
    ∧ (main_run sample_main_world).exit_code = 0 := by
  refine ⟨?_, ?_, ?_, ?_, ?_⟩
  · exact (run_convert_script_never_raises_nonfatal).2.1 SubprocResult.timedOut
  · exact (run_convert_script_never_raises_nonfatal).2.2.1 1 "" "conversion error"
      (by decide)
  · exact (run_convert_script_never_raises_nonfatal).2.2.2.1
  · exact (run_convert_script_never_raises_nonfatal).2.2.2.2.1 "OSError"
  · exact ((run_convert_script_never_raises_nonfatal).2.2.2.2.2 sample_main_world "T1"
      "https://h/m1.glb" "glb" false rfl rfl rfl (by decide)
      ⟨⟨[main_model_info sample_main_world "T1" "https://h/m1.glb"]⟩, rfl⟩).1

/-- Claim C10: if persisting the model record fails — the mkdir, the load
or the write step raises — write_models_json re-raises the exception, main
catches it only at its top-level handler and the pipeline exits with
status 1, with no record persisted, even though a conversion failure would
not have been fatal. -/
theorem write_models_json_failure_fatal
    (w : MainWorld) (task_id u fmt e : String) (vf : Bool)
    (hak : w.api_key_set = true) (hsub : w.submit_result = PyResult.ok task_id)
    (hpoll : w.poll_outcome = Outcome.completed (some u) fmt vf) (hne : u ≠ "")
    (hfail : w.store.mkdir_result = PyResult.exn e ∨
      w.store.load_result = LoadResult.corrupt e ∨
      w.store.write_result = PyResult.exn e) :
    (∃ e2, write_models_json w.store (main_model_info w task_id u) = PyResult.exn e2)
    ∧ (main_run w).exit_code = 1 ∧ (main_run w).recorded = none := by
  have hw : ∃ e2, write_models_json w.store (main_model_info w task_id u) =
      PyResult.exn e2 := by
    rcases hfail with h | h | h
    · exact ⟨e, by simp [write_models_json, h]⟩
    · cases hmk : w.store.mkdir_result with
      | exn e1 => exact ⟨e1, by simp [write_models_json, hmk]⟩
      | ok a => cases a; exact ⟨e, by simp [write_models_json, loadExisting, hmk, h]⟩
    · cases hmk : w.store.mkdir_result with
      | exn e1 => exact ⟨e1, by simp [write_models_json, hmk]⟩
      | ok a =>
        cases a
        cases hld : w.store.load_result with
        | missing => exact ⟨e, by simp [write_models_json, loadExisting, hmk, hld, h]⟩
        | loaded d => exact ⟨e, by simp [write_models_json, loadExisting, hmk, hld, h]⟩
        | corrupt e1 => exact ⟨e1, by simp [write_models_json, loadExisting, hmk, hld]⟩
  obtain ⟨e2, he2⟩ := hw
  refine ⟨⟨e2, he2⟩, ?_⟩
  simp [main_run, hak, hsub, hpoll, truthyStr, hne, he2]

/-- Witness for claim C10: a run whose models.json write raises exits 1
with nothing recorded. -/
theorem write_models_json_failure_fatal_witness :
    (∃ e2, write_models_json
      { mkdir_result := PyResult.ok ()
        load_result := LoadResult.missing
        write_result := PyResult.exn "No space left on device" }
      (main_model_info
        { api_key_set := true
          submit_result := PyResult.ok "T1"
          poll_outcome := Outcome.completed (some "https://h/m1.glb") "glb" false
          store := { mkdir_result := PyResult.ok ()
                     load_result := LoadResult.missing
                     write_result := PyResult.exn "No space left on device" }
          convert_flag := false
          convert_script_exists := false
          convert_sub := SubprocResult.timedOut
          timestamp := "2025-01-01T00:00:00" } "T1" "https://h/m1.glb") =
        PyResult.exn e2)
    ∧ (main_run
      { api_key_set := true
        submit_result := PyResult.ok "T1"
        poll_outcome := Outcome.completed (some "https://h/m1.glb") "glb" false
        store := { mkdir_result := PyResult.ok ()
                   load_result := LoadResult.missing
                   write_result := PyResult.exn "No space left on device" }
        convert_flag := false
        convert_script_exists := false
        convert_sub := SubprocResult.timedOut
        timestamp := "2025-01-01T00:00:00" }).exit_code = 1 := by
  have h := write_models_json_failure_fatal
    { api_key_set := true
      submit_result := PyResult.ok "T1"
      poll_outcome := Outcome.completed (some "https://h/m1.glb") "glb" false
      store := { mkdir_result := PyResult.ok ()
                 load_result := LoadResult.missing
                 write_result := PyResult.exn "No space left on device" }
      convert_flag := false
      convert_script_exists := false
      convert_sub := SubprocResult.timedOut
      timestamp := "2025-01-01T00:00:00" }
    "T1" "https://h/m1.glb" "glb" "No space left on device" false
    rfl rfl rfl (by decide) (Or.inr (Or.inr rfl))
  exact ⟨h.1, h.2.1⟩

set_option maxRecDepth 100000 in
/-- Claim C9 is half right and half wrong on the code.  Right: when the
project file already contains a PBXShellScriptBuildPhase, the function is
a no-op returning True without writing anything.  Wrong: on the mutating
path the backup file receives the content variable only after the line
loop has already inserted the build-phase reference, so the backup equals
the mutated project content, not the original pre-mutation content (the
source even prints that it backed up the original file).  At the concrete
sample project content, the call mutates the file, backup and project get
the same bytes, and the backup differs from the original content. -/
theorem add_phase_backup_contains_mutated_content :
    add_run_script_phase true "aa PBXShellScriptBuildPhase bb" sample_phase_id =
      ⟨true, none, none⟩
    ∧ (add_run_script_phase true sample_pbxproj sample_phase_id).result = true
    ∧ (add_run_script_phase true sample_pbxproj sample_phase_id).backup_written =
        (add_run_script_phase true sample_pbxproj sample_phase_id).project_written
    ∧ (add_run_script_phase true sample_pbxproj sample_phase_id).backup_written ≠ none
    ∧ (add_run_script_phase true sample_pbxproj sample_phase_id).backup_written ≠
        some sample_pbxproj := by
  refine ⟨by decide, by decide, by decide, by decide, by decide⟩

end DreamVision
